import Mathlib

/-!
Verification development for the operator module of the repository
(airflow/operators/python.py).  The definitions below are a shallow
embedding of the functions of that file that the properties under
study concern: the construction-time validation of
PythonVirtualenvOperator, the argument marshaller (write_args and
write_string_args), the generated driver script (its text and its
behaviour), the subprocess command line, the result reader
(read_result), and PythonOperator.determine_op_kwargs.

Serialized artifacts are modelled symbolically: a blob produced by a
codec (pickle or dill) remembers which codec produced it and which
value it encodes; decoding succeeds exactly when the configured codec
matches the one that produced the blob.  A separate constructor
stands for bytes produced by an incompatible Python major version,
whose decoding raises ValueError in CPython.
-/

set_option autoImplicit false

namespace AirflowPython

variable {α : Type}

/-- The two serialization codecs selectable by the use_dill flag. -/
inductive Codec where
  | pickle
  | dill
deriving DecidableEq, Repr

/-- Code: the operator serializes with dill when use_dill is true and
with pickle otherwise. -/
def codecOf (use_dill : Bool) : Codec :=
  if use_dill then Codec.dill else Codec.pickle

/-- Name of the serialization library, substituted into the generated
script as pickling_library in generate_python_code. -/
def Codec.libName : Codec → String
  | Codec.pickle => "pickle"
  | Codec.dill => "dill"

/-- What construction needs to know about the python_callable object:
whether it is callable at all, whether it is an instance of
types.FunctionType (a plain function: false for bound methods and for
non-function callables), and its __name__.  A lambda is a FunctionType
whose __name__ equals "<lambda>". -/
structure CallableInfo where
  isCallable : Bool
  isFunctionType : Bool
  name : String
  source : String
deriving DecidableEq, Repr

/-- (lambda x: 0).__name__, the sentinel the constructor compares
python_callable.__name__ against. -/
def lambdaName : String := "<lambda>"

/-- Whether pat is a leading segment of l. -/
def takesPrefixOf : List Char → List Char → Bool
  | [], _ => true
  | _ :: _, [] => false
  | a :: as, b :: bs => a = b && takesPrefixOf as bs

/-- Python str.startswith on the underlying character lists. -/
def pyStartswith (pat s : String) : Bool :=
  takesPrefixOf pat.toList s.toList

/-- ASCII lowering of one character, as Python str.lower acts on the
ASCII range the requirement strings use. -/
def lowerChar (c : Char) : Char :=
  if 'A' ≤ c ∧ c ≤ 'Z' then Char.ofNat (c.toNat + 32) else c

/-- Python str.lower. -/
def pyLower (s : String) : String :=
  String.mk (s.toList.map lowerChar)

/-- The whitespace characters Python str.strip removes: space, tab,
newline, vertical tab, form feed, carriage return. -/
def isPySpace (c : Char) : Bool :=
  c = ' ' || c = Char.ofNat 9 || c = Char.ofNat 10 || c = Char.ofNat 11
    || c = Char.ofNat 12 || c = Char.ofNat 13

/-- Python str.strip: drop whitespace from both ends. -/
def pyStrip (s : String) : String :=
  String.mk (((s.toList.dropWhile isPySpace).reverse.dropWhile isPySpace).reverse)

/-- The state of a PythonVirtualenvOperator that the marshalling and
script-generation code reads: the fields set in __init__ (after the
`or []` defaults), with op_args and op_kwargs as they stand when
execute_callable runs.  Values carried by arguments are drawn from an
abstract type α. -/
structure VenvConfig (α : Type) where
  callable : CallableInfo
  requirements : List String
  python_version : Option String
  use_dill : Bool
  system_site_packages : Bool
  op_args : List α
  op_kwargs : List (String × α)
  string_args : List String

/-- Code of _pass_op_args: op_args and op_kwargs are passed exactly
when their combined length is positive. -/
def pass_op_args (cfg : VenvConfig α) : Bool :=
  decide (0 < cfg.op_args.length + cfg.op_kwargs.length)

/-- The distinct exceptions PythonVirtualenvOperator construction can
raise: the callable check of PythonOperator.__init__, the dill
requirement check, the plain-function check, the cross-version check,
and the IndexError that str(python_version)[0] raises on an empty
version string. -/
inductive InitError where
  | notCallable
  | dillRequired
  | functionsOnly
  | crossVersionArgs
  | indexError
deriving DecidableEq, Repr

/-- Construction-time validation of PythonVirtualenvOperator, in the
order the checks run: PythonOperator.__init__ first rejects a
non-callable target; then the dill check fires when
system_site_packages is false, use_dill is true and no requirement
starts (case-insensitively) with "dill"; then any target that is not a
FunctionType, or whose name is "<lambda>", is rejected; finally, when
python_version is given, its first character is compared with the
first character of the host major version and, if they differ while
op_args or op_kwargs are non-empty, construction fails.  host_major is
the single character of str(sys.version_info[0]). -/
def pvo_init (host_major : Char) (cfg : VenvConfig α) : Except InitError Unit :=
  if cfg.callable.isCallable = false then
    Except.error InitError.notCallable
  else if cfg.system_site_packages = false && cfg.use_dill
      && !(cfg.requirements.any (fun x => pyStartswith "dill" (pyLower x))) then
    Except.error InitError.dillRequired
  else if cfg.callable.isFunctionType = false || cfg.callable.name == lambdaName then
    Except.error InitError.functionsOnly
  else
    match cfg.python_version with
    | none => Except.ok ()
    | some s =>
      match s.toList.head? with
      | none => Except.error InitError.indexError
      | some c =>
        if c != host_major && pass_op_args cfg then
          Except.error InitError.crossVersionArgs
        else
          Except.ok ()

/-- A serialized input artifact: the arg_dict structure with fields
"args" and "kwargs", tagged with the codec that dumped it. -/
inductive ArgsBlob (α : Type) where
  | enc (c : Codec) (args : List α) (kwargs : List (String × α))
deriving DecidableEq

/-- Codec that produced an input artifact. -/
def ArgsBlob.codec : ArgsBlob α → Codec
  | ArgsBlob.enc c _ _ => c

/-- Code of _write_args: only when _pass_op_args is true is an input
artifact written, holding the arg_dict with the op_args sequence and
the op_kwargs mapping, dumped with dill when use_dill is set and with
pickle otherwise; none means no file is created. -/
def write_args (cfg : VenvConfig α) : Option (ArgsBlob α) :=
  if pass_op_args cfg then
    some (ArgsBlob.enc (codecOf cfg.use_dill) cfg.op_args cfg.op_kwargs)
  else
    none

/-- Code of _write_string_args: the file content is the entries of
string_args joined by newline; map(str, ...) is the identity on
strings.  The write is unconditional, so even an empty list produces a
(zero-length) file. -/
def write_string_args (string_args : List String) : String :=
  String.intercalate "\n" string_args

/-- State of the output artifact as _read_result can find it: the
path may not exist, the file may be empty (os.stat st_size zero), it
may hold a value dumped by one of the two codecs, or it may hold
bytes written by an incompatible Python major version (decoding those
raises ValueError in CPython). -/
inductive OutFile (α : Type) where
  | absent
  | empty
  | enc (c : Codec) (v : α)
  | foreign
deriving DecidableEq

/-- The exceptions _read_result can raise: os.stat on a missing path
raises FileNotFoundError; a failed load raises ValueError, which the
code logs ("result deserialization is not supported across major
Python versions") and re-raises. -/
inductive ReadError where
  | fileNotFound
  | decodeErrorLogged
deriving DecidableEq, Repr

/-- Code of _read_result, instrumented: the second component records
whether a load (decode) was attempted.  A missing file fails at the
os.stat call, before any open; a zero-length file returns None with no
load; otherwise the file is opened and loaded with the configured
codec, a mismatched or foreign blob failing with the logged-and-
re-raised ValueError. -/
def read_result_attempts (use_dill : Bool) : OutFile α → Except ReadError (Option α) × Bool
  | OutFile.absent => (Except.error ReadError.fileNotFound, false)
  | OutFile.empty => (Except.ok none, false)
  | OutFile.enc c v =>
      (if c = codecOf use_dill then Except.ok (some v)
       else Except.error ReadError.decodeErrorLogged, true)
  | OutFile.foreign => (Except.error ReadError.decodeErrorLogged, true)

/-- Code of _read_result (the value it returns or the exception it
raises). -/
def read_result (use_dill : Bool) (out : OutFile α) : Except ReadError (Option α) :=
  (read_result_attempts use_dill out).1

/-- Code of _generate_python_cmd: the interpreter at the fixed
relative path bin/python inside the temporary directory, followed by
the script, input, output and string-args paths in that order. -/
def generate_python_cmd (tmp_dir script_filename input_filename output_filename
    string_args_filename : String) : List String :=
  [tmp_dir ++ "/bin/python", script_filename, input_filename, output_filename,
   string_args_filename]

/-- The command execute_callable builds: the four file names are
os.path.join of the temporary directory with script.py, script.in,
script.out and string_args.txt. -/
def execute_cmd (tmp_dir : String) : List String :=
  generate_python_cmd tmp_dir (tmp_dir ++ "/script.py") (tmp_dir ++ "/script.in")
    (tmp_dir ++ "/script.out") (tmp_dir ++ "/string_args.txt")

/-- The load_args_line of _generate_python_code: when op args are
passed, the generated script opens sys.argv[1] and loads arg_dict with
the pickling library; otherwise it synthesizes the empty arg_dict
without touching any file. -/
def load_args_line (passArgs : Bool) (use_dill : Bool) : String :=
  if passArgs then
    "with open(sys.argv[1], \"rb\") as file: arg_dict = "
      ++ (codecOf use_dill).libName ++ ".load(file)"
  else
    "arg_dict = \x7b\"args\": [], \"kwargs\": \x7b\x7d\x7d"

/-- The lines of the generated script that precede the inlined source
of the callable, after dedent: import of the pickling library, import
of sys, the load_args_line, the projections of arg_dict, and the read
of the string-args file at sys.argv[3] into the global
virtualenv_string_args. -/
def script_prefix_lines (passArgs : Bool) (use_dill : Bool) : List String :=
  ["import " ++ (codecOf use_dill).libName,
   "import sys",
   load_args_line passArgs use_dill,
   "args = arg_dict[\"args\"]",
   "kwargs = arg_dict[\"kwargs\"]",
   "with open(sys.argv[3], \x27r\x27) as file:",
   "    virtualenv_string_args = list(map(lambda x: x.strip(), list(file)))"]

/-- The lines of the generated script that follow the inlined source:
the call of the callable, and the write of the result to sys.argv[2],
where opening with mode wb truncates the file and dump runs only when
res is not None. -/
def script_suffix_lines (use_dill : Bool) (name : String) : List String :=
  ["res = " ++ name ++ "(*args, **kwargs)",
   "with open(sys.argv[2], \x27wb\x27) as file:",
   "    res is not None and " ++ (codecOf use_dill).libName ++ ".dump(res, file)"]

/-- Code of _generate_python_code: the dedented template with the
load_args_line, the dedented source of the callable and its name, and
the pickling library substituted in. -/
def generate_python_code (cfg : VenvConfig α) : String :=
  String.intercalate "\n"
    (script_prefix_lines (pass_op_args cfg) cfg.use_dill
      ++ [cfg.callable.source]
      ++ script_suffix_lines cfg.use_dill cfg.callable.name) ++ "\n"

/-- Iterating a Python file object yields its lines with their
trailing newline kept; a final chunk without a trailing newline is
kept as-is, and an empty file yields no lines.  acc accumulates the
current line in reverse. -/
def fileLinesAux (acc : List Char) : List Char → List String
  | [] => if acc.isEmpty then [] else [String.mk acc.reverse]
  | c :: cs =>
    if c = Char.ofNat 10 then
      String.mk (acc.reverse ++ [Char.ofNat 10]) :: fileLinesAux [] cs
    else
      fileLinesAux (c :: acc) cs

/-- list(file) on a file with content c. -/
def fileLines (c : String) : List String :=
  fileLinesAux [] c.toList

/-- The exceptions the generated script itself can raise before the
callable runs: opening a missing sys.argv[1], or a load failure on the
input artifact. -/
inductive DriverError where
  | inputFileMissing
  | argsDecodeFailure
deriving DecidableEq, Repr

/-- The write of the result artifact in the generated script: the
output file is opened with mode wb (truncating it to zero length) and
dump runs only when res is not None, so a None result leaves an empty
file and any other result leaves a blob of the configured codec. -/
def encodeResult (use_dill : Bool) : Option α → OutFile α
  | none => OutFile.empty
  | some v => OutFile.enc (codecOf use_dill) v

/-- Behaviour of the generated script inside the virtualenv.
passArgs is the value of _pass_op_args baked in at generation time;
input is the content of the path given as sys.argv[1] (none when no
file exists there); stringArgsContent is the content of the path
given as sys.argv[3].  The callable f sees the decoded positional
args, the decoded kwargs and the global virtualenv_string_args (the
stripped lines of the string-args file), and its optional result is
written to the path given as sys.argv[2]. -/
def run_driver (use_dill : Bool) (passArgs : Bool) (input : Option (ArgsBlob α))
    (stringArgsContent : String)
    (f : List α → List (String × α) → List String → Option α) :
    Except DriverError (OutFile α) :=
  let argd : Except DriverError (List α × List (String × α)) :=
    if passArgs then
      match input with
      | none => Except.error DriverError.inputFileMissing
      | some (ArgsBlob.enc c as ks) =>
        if c = codecOf use_dill then Except.ok (as, ks)
        else Except.error DriverError.argsDecodeFailure
    else
      Except.ok ([], [])
  match argd with
  | Except.error e => Except.error e
  | Except.ok (as, ks) =>
    let vsa := (fileLines stringArgsContent).map (fun x => pyStrip x)
    Except.ok (encodeResult use_dill (f as ks vsa))

/-- Errors of one whole execute_callable run, as seen by the caller. -/
inductive ExecError where
  | driver (e : DriverError)
  | read (e : ReadError)
deriving DecidableEq, Repr

/-- One whole execute_callable run: write the input artifact and the
string-args artifact, run the generated script in the subprocess, and
read the result artifact back. -/
def execute_callable_model (cfg : VenvConfig α)
    (f : List α → List (String × α) → List String → Option α) :
    Except ExecError (Option α) :=
  match run_driver cfg.use_dill (pass_op_args cfg) (write_args cfg)
      (write_string_args cfg.string_args) f with
  | Except.error e => Except.error (ExecError.driver e)
  | Except.ok out =>
    match read_result cfg.use_dill out with
    | Except.error e => Except.error (ExecError.read e)
    | Except.ok r => Except.ok r

/-- One parameter of the signature of a python_callable: its name and
whether str(param) starts with ** (a catch-all keyword parameter). -/
structure Param where
  name : String
  isVarKeyword : Bool
deriving DecidableEq, Repr

/-- Code of PythonOperator.determine_op_kwargs: the first num_op_args
parameter names are checked against the context keys and the first
collision raises ValueError; then, if any parameter is a ** parameter,
the whole context becomes op_kwargs; otherwise op_kwargs is the
comprehension over the signature keeping the parameters whose name is
a context key, bound to the context value. -/
def determine_op_kwargs (sig : List Param) (context : List (String × α))
    (num_op_args : Nat) : Except String (List (String × α)) :=
  match (sig.take num_op_args).find?
      (fun p => (context.map Prod.fst).contains p.name) with
  | some p =>
    Except.error ("The key " ++ p.name
      ++ " in the op_args is part of the context, and therefore reserved")
  | none =>
    if sig.any (fun p => p.isVarKeyword) then
      Except.ok context
    else
      Except.ok (sig.filterMap
        (fun p => (context.lookup p.name).map (fun v => (p.name, v))))

/-- Segment search on character lists. -/
def hasSeg (pat : List Char) : List Char → Bool
  | [] => takesPrefixOf pat []
  | c :: cs => takesPrefixOf pat (c :: cs) || hasSeg pat cs

/-- Whether pat occurs as a contiguous substring of s. -/
def mentions (pat s : String) : Bool :=
  hasSeg pat.toList s.toList

lemma pass_op_args_nil (cfg : VenvConfig α) (h1 : cfg.op_args = [])
    (h2 : cfg.op_kwargs = []) : pass_op_args cfg = false := by
  simp [pass_op_args, h1, h2]

lemma run_driver_no_pass (u : Bool) (input : Option (ArgsBlob α)) (sa : String)
    (f : List α → List (String × α) → List String → Option α) :
    run_driver u false input sa f
      = Except.ok (encodeResult u (f [] [] ((fileLines sa).map (fun x => pyStrip x)))) := by
  simp [run_driver]

/-- C1: with zero positional and zero keyword arguments, no input
artifact is written, the generated script synthesizes the empty
arg_dict instead of loading the input file, and the driver run
succeeds even though no input artifact exists, calling the callable
with empty positional and keyword containers. -/
theorem zero_args_protocol (cfg : VenvConfig α)
    (f : List α → List (String × α) → List String → Option α)
    (h1 : cfg.op_args = []) (h2 : cfg.op_kwargs = []) :
    write_args cfg = none
  ∧ load_args_line (pass_op_args cfg) cfg.use_dill
      = "arg_dict = \x7b\"args\": [], \"kwargs\": \x7b\x7d\x7d"
  ∧ run_driver cfg.use_dill (pass_op_args cfg) (write_args cfg)
        (write_string_args cfg.string_args) f
      = Except.ok (encodeResult cfg.use_dill
          (f [] [] ((fileLines (write_string_args cfg.string_args)).map
            (fun x => pyStrip x)))) := by
  have hp : pass_op_args cfg = false := pass_op_args_nil cfg h1 h2
  refine ⟨?_, ?_, ?_⟩
  · simp [write_args, hp]
  · simp [load_args_line, hp]
  · rw [hp]
    exact run_driver_no_pass cfg.use_dill (write_args cfg)
      (write_string_args cfg.string_args) f

def cfgC1 : VenvConfig Nat :=
  ⟨⟨true, true, "f", "def f(): pass"⟩, [], none, false, true, [], [], []⟩

def fC1 : List Nat → List (String × Nat) → List String → Option Nat :=
  fun _ _ _ => none

theorem zero_args_protocol_witness :
    write_args cfgC1 = none
  ∧ load_args_line (pass_op_args cfgC1) cfgC1.use_dill
      = "arg_dict = \x7b\"args\": [], \"kwargs\": \x7b\x7d\x7d"
  ∧ run_driver cfgC1.use_dill (pass_op_args cfgC1) (write_args cfgC1)
        (write_string_args cfgC1.string_args) fC1
      = Except.ok (encodeResult cfgC1.use_dill
          (fC1 [] [] ((fileLines (write_string_args cfgC1.string_args)).map
            (fun x => pyStrip x)))) :=
  zero_args_protocol cfgC1 fC1 rfl rfl

/-- C2: on a zero-length output artifact _read_result returns None
without attempting a load; on a non-empty artifact a load is
attempted, and the only error a failed load raises is the one that is
logged (with the cross-major-version message) and re-raised. -/
theorem read_result_empty_or_decode (use_dill : Bool) (out : OutFile α)
    (hex : out ≠ OutFile.absent) :
    (out = OutFile.empty → read_result_attempts use_dill out = (Except.ok none, false))
  ∧ (out ≠ OutFile.empty → (read_result_attempts use_dill out).2 = true)
  ∧ (∀ e, (read_result_attempts use_dill out).1 = Except.error e →
      e = ReadError.decodeErrorLogged) := by
  refine ⟨?_, ?_, ?_⟩
  · intro he; subst he; rfl
  · intro hne
    cases out with
    | absent => exact absurd rfl hex
    | empty => exact absurd rfl hne
    | enc c v => rfl
    | foreign => rfl
  · intro e he
    cases out with
    | absent => exact absurd rfl hex
    | empty => simp [read_result_attempts] at he
    | enc c v =>
      by_cases hc : c = codecOf use_dill
      · simp [read_result_attempts, hc] at he
      · simp [read_result_attempts, hc] at he
        exact he.symm
    | foreign =>
      simp [read_result_attempts] at he
      exact he.symm

theorem read_result_empty_or_decode_witness :
    ((OutFile.foreign : OutFile Nat) = OutFile.empty →
      read_result_attempts false (OutFile.foreign : OutFile Nat) = (Except.ok none, false))
  ∧ ((OutFile.foreign : OutFile Nat) ≠ OutFile.empty →
      (read_result_attempts false (OutFile.foreign : OutFile Nat)).2 = true)
  ∧ (∀ e, (read_result_attempts false (OutFile.foreign : OutFile Nat)).1 = Except.error e →
      e = ReadError.decodeErrorLogged) :=
  read_result_empty_or_decode false OutFile.foreign (by decide)

/-- C10: a successful driver run always leaves an output artifact:
the output file is opened for writing after the callable runs, so it
exists, is zero-length exactly when the callable returned None and
holds the encoded result otherwise, and the file-size check of
_read_result never meets a missing file after a successful run. -/
theorem driver_output_exists (u p : Bool) (input : Option (ArgsBlob α)) (sa : String)
    (f : List α → List (String × α) → List String → Option α) (out : OutFile α)
    (h : run_driver u p input sa f = Except.ok out) :
    out ≠ OutFile.absent
  ∧ (read_result_attempts u out).1 ≠ Except.error ReadError.fileNotFound
  ∧ ∃ r : Option α, out = encodeResult u r
      ∧ (r = none → out = OutFile.empty)
      ∧ ∀ v, r = some v → out = OutFile.enc (codecOf u) v := by
  have hout : ∃ r : Option α, out = encodeResult u r := by
    unfold run_driver at h
    cases p with
    | false =>
      simp at h
      exact ⟨_, h.symm⟩
    | true =>
      cases input with
      | none => simp at h
      | some b =>
        cases b with
        | enc c as ks =>
          by_cases hc : c = codecOf u
          · simp [hc] at h
            exact ⟨_, h.symm⟩
          · simp [hc] at h
  rcases hout with ⟨r, rfl⟩
  refine ⟨?_, ?_, r, rfl, ?_, ?_⟩
  · cases r <;> simp [encodeResult]
  · cases r with
    | none => simp [encodeResult, read_result_attempts]
    | some v => simp [encodeResult, read_result_attempts]
  · intro hr; subst hr; rfl
  · intro v hv; subst hv; rfl

def fC10 : List Nat → List (String × Nat) → List String → Option Nat :=
  fun _ _ _ => some 5

theorem driver_output_exists_witness :
    (OutFile.enc Codec.pickle 5 : OutFile Nat) ≠ OutFile.absent
  ∧ (read_result_attempts false (OutFile.enc Codec.pickle 5 : OutFile Nat)).1
      ≠ Except.error ReadError.fileNotFound
  ∧ ∃ r : Option Nat, (OutFile.enc Codec.pickle 5 : OutFile Nat) = encodeResult false r
      ∧ (r = none → (OutFile.enc Codec.pickle 5 : OutFile Nat) = OutFile.empty)
      ∧ ∀ v, r = some v →
          (OutFile.enc Codec.pickle 5 : OutFile Nat) = OutFile.enc (codecOf false) v :=
  driver_output_exists false false none "" fC10 (OutFile.enc Codec.pickle 5) rfl

lemma read_result_encodeResult (u : Bool) (r : Option α) :
    read_result u (encodeResult u r) = Except.ok r := by
  cases r <;> simp [read_result, read_result_attempts, encodeResult]

lemma run_driver_pass (u : Bool) (as : List α) (ks : List (String × α)) (sa : String)
    (f : List α → List (String × α) → List String → Option α) :
    run_driver u true (some (ArgsBlob.enc (codecOf u) as ks)) sa f
      = Except.ok (encodeResult u (f as ks ((fileLines sa).map (fun x => pyStrip x)))) := by
  simp [run_driver]

/-- C3: the codec choice is tied to the single use_dill field: the
input artifact carries the codec selected by use_dill, the generated
script imports, loads and dumps with the one library named by that
same codec, and a whole run — marshal, drive, read back — succeeds
with the value returned by the callable, which requires every decode
to use the codec of the matching encode. -/
theorem codec_symmetry (cfg : VenvConfig α)
    (f : List α → List (String × α) → List String → Option α) :
    (∀ b, write_args cfg = some b → ArgsBlob.codec b = codecOf cfg.use_dill)
  ∧ (codecOf cfg.use_dill).libName = (if cfg.use_dill then "dill" else "pickle")
  ∧ execute_callable_model cfg f
      = Except.ok (f cfg.op_args cfg.op_kwargs
          ((fileLines (write_string_args cfg.string_args)).map (fun x => pyStrip x))) := by
  refine ⟨?_, ?_, ?_⟩
  · intro b hb
    by_cases hp : pass_op_args cfg = true
    · simp [write_args, hp] at hb
      rw [← hb]
      rfl
    · simp [write_args, hp] at hb
  · cases cfg.use_dill <;> rfl
  · by_cases hp : pass_op_args cfg = true
    · have hw : write_args cfg
          = some (ArgsBlob.enc (codecOf cfg.use_dill) cfg.op_args cfg.op_kwargs) := by
        simp [write_args, hp]
      rw [execute_callable_model, hp, hw, run_driver_pass]
      simp [read_result_encodeResult]
    · have hfalse : pass_op_args cfg = false := by simpa using hp
      have h0 : ¬ (0 < cfg.op_args.length + cfg.op_kwargs.length) :=
        of_decide_eq_false (by simpa [pass_op_args] using hfalse)
      have ha : cfg.op_args = [] := List.length_eq_zero.mp (by omega)
      have hk : cfg.op_kwargs = [] := List.length_eq_zero.mp (by omega)
      rw [execute_callable_model, hfalse, run_driver_no_pass, ha, hk]
      simp [read_result_encodeResult]

def cfgC3 : VenvConfig Nat :=
  ⟨⟨true, true, "f", "def f(a, b): return a + b"⟩, ["dill"], none, true, true,
   [2, 3], [("k", 4)], ["a"]⟩

def fC3 : List Nat → List (String × Nat) → List String → Option Nat :=
  fun as ks _ => some (as.length + ks.length)

theorem codec_symmetry_witness :
    (∀ b, write_args cfgC3 = some b → ArgsBlob.codec b = codecOf cfgC3.use_dill)
  ∧ (codecOf cfgC3.use_dill).libName = (if cfgC3.use_dill then "dill" else "pickle")
  ∧ execute_callable_model cfgC3 fC3
      = Except.ok (fC3 cfgC3.op_args cfgC3.op_kwargs
          ((fileLines (write_string_args cfgC3.string_args)).map (fun x => pyStrip x))) :=
  codec_symmetry cfgC3 fC3

/-- C5: the string-args artifact is written unconditionally as the
newline join of its entries (the empty list gives a zero-length
file), the driver reads it back as the whitespace-stripped lines
bound to the global virtualenv_string_args, and for the entries alpha
and beta the injected sequence is exactly those two entries in
order. -/
theorem string_args_contract (l : List String) (u : Bool)
    (f : List α → List (String × α) → List String → Option α) :
    write_string_args l = String.intercalate "\n" l
  ∧ write_string_args [] = ""
  ∧ (fileLines (write_string_args ["alpha", "beta"])).map (fun x => pyStrip x)
      = ["alpha", "beta"]
  ∧ run_driver u false none (write_string_args ["alpha", "beta"]) f
      = Except.ok (encodeResult u (f [] [] ["alpha", "beta"])) := by
  have h3 : (fileLines (write_string_args ["alpha", "beta"])).map (fun x => pyStrip x)
      = ["alpha", "beta"] := by decide
  refine ⟨rfl, rfl, h3, ?_⟩
  rw [run_driver_no_pass, h3]

def fC5 : List Nat → List (String × Nat) → List String → Option Nat :=
  fun _ _ vsa => some vsa.length

theorem string_args_contract_witness :
    write_string_args ["x"] = String.intercalate "\n" ["x"]
  ∧ write_string_args [] = ""
  ∧ (fileLines (write_string_args ["alpha", "beta"])).map (fun x => pyStrip x)
      = ["alpha", "beta"]
  ∧ run_driver false false none (write_string_args ["alpha", "beta"]) fC5
      = Except.ok (encodeResult false (fC5 [] [] ["alpha", "beta"])) :=
  string_args_contract ["x"] false fC5

/-- C6: requesting a python_version whose leading character differs
from the host major version while op_args or op_kwargs are non-empty
always makes construction fail, so execution (and hence any
subprocess) is never reached. -/
theorem cross_version_args_rejected (hm : Char) (cfg : VenvConfig α) (s : String)
    (hv : cfg.python_version = some s)
    (hmaj : s.toList.head? ≠ some hm)
    (hargs : pass_op_args cfg = true) :
    ∃ e, pvo_init hm cfg = Except.error e := by
  unfold pvo_init
  split
  · exact ⟨_, rfl⟩
  · split
    · exact ⟨_, rfl⟩
    · split
      · exact ⟨_, rfl⟩
      · rw [hv]
        simp only []
        cases hh : s.toList.head? with
        | none =>
          simp only [hh]
          exact ⟨_, rfl⟩
        | some c =>
          have hcne : (c != hm) = true := by
            rcases eq_or_ne c hm with h | h
            · exact absurd (by rw [hh, h]) hmaj
            · simpa using h
          simp only [hh, hcne, hargs, Bool.and_self, if_pos]
          exact ⟨_, rfl⟩

def cfgC6 : VenvConfig Nat :=
  ⟨⟨true, true, "f", "def f(x): return x"⟩, [], some "2", false, true, [1], [], []⟩

theorem cross_version_args_rejected_witness :
    ∃ e, pvo_init (Char.ofNat 51) cfgC6 = Except.error e :=
  cross_version_args_rejected (Char.ofNat 51) cfgC6 "2" rfl (by decide) (by decide)

def cfgC7 : VenvConfig Nat :=
  ⟨⟨true, true, "f", "def f(): pass"⟩, [], none, true, true, [], [], []⟩

/-- C7 as stated is false on the code: with system_site_packages left
at its default of true, an operator requesting use_dill with an empty
requirement list is constructed successfully — the dill check only
fires when system_site_packages is false. -/
theorem use_dill_without_requirement_accepted :
    cfgC7.use_dill = true
  ∧ cfgC7.requirements = []
  ∧ cfgC7.system_site_packages = true
  ∧ pvo_init (Char.ofNat 51) cfgC7 = Except.ok () := by
  refine ⟨rfl, rfl, rfl, ?_⟩
  rfl

/-- C7 amended: requesting use_dill without dill in the requirement
set fails construction when, in addition, system_site_packages is
false (when system_site_packages is true, dill may come from the
system packages and construction proceeds). -/
theorem use_dill_requirement_check (hm : Char) (cfg : VenvConfig α)
    (hd : cfg.use_dill = true)
    (hs : cfg.system_site_packages = false)
    (hr : cfg.requirements.any (fun x => pyStartswith "dill" (pyLower x)) = false) :
    ∃ e, pvo_init hm cfg = Except.error e := by
  unfold pvo_init
  split
  · exact ⟨_, rfl⟩
  · rw [if_pos]
    · exact ⟨_, rfl⟩
    · simp [hs, hd, hr]

def cfgC7a : VenvConfig Nat :=
  ⟨⟨true, true, "f", "def f(): pass"⟩, ["numpy"], none, true, false, [], [], []⟩

theorem use_dill_requirement_check_witness :
    ∃ e, pvo_init (Char.ofNat 51) cfgC7a = Except.error e :=
  use_dill_requirement_check (Char.ofNat 51) cfgC7a rfl rfl (by decide)

/-- C8: a python_callable that is not a plain named function — not an
instance of FunctionType (bound methods, arbitrary callables), or a
lambda, recognized by the name "<lambda>" — always makes construction
fail; construction performs no file I/O. -/
theorem lambda_or_method_rejected (hm : Char) (cfg : VenvConfig α)
    (h : cfg.callable.isFunctionType = false ∨ cfg.callable.name = lambdaName) :
    ∃ e, pvo_init hm cfg = Except.error e := by
  unfold pvo_init
  split
  · exact ⟨_, rfl⟩
  · split
    · exact ⟨_, rfl⟩
    · rw [if_pos]
      · exact ⟨_, rfl⟩
      · rcases h with h | h
        · simp [h]
        · simp [h]

def cfgC8 : VenvConfig Nat :=
  ⟨⟨true, true, "<lambda>", "lambda x: 0"⟩, [], none, false, true, [], [], []⟩

theorem lambda_or_method_rejected_witness :
    ∃ e, pvo_init (Char.ofNat 51) cfgC8 = Except.error e :=
  lambda_or_method_rejected (Char.ofNat 51) cfgC8 (Or.inr rfl)

lemma filterMap_lookup (context : List (String × α)) :
    ∀ sig : List Param, (sig.map Param.name).Nodup →
    ∀ k : String,
      (sig.filterMap (fun p => (context.lookup p.name).map (fun v => (p.name, v)))).lookup k
        = if (sig.map Param.name).contains k then context.lookup k else none := by
  intro sig
  induction sig with
  | nil => intro _ k; simp
  | cons p ps ih =>
    intro hnd k
    rw [List.map_cons, List.nodup_cons] at hnd
    obtain ⟨hp, hps⟩ := hnd
    rw [List.filterMap_cons]
    by_cases hk : k = p.name
    · have hcont : (ps.map Param.name).contains k = false := by
        rw [hk]
        simpa using hp
      cases hcl : context.lookup p.name with
      | none =>
        simp only [hcl, Option.map_none']
        rw [ih hps k, hcont]
        simp [hk, hcl]
      | some v =>
        simp only [hcl, Option.map_some']
        rw [List.lookup_cons]
        have hbeq : (k == p.name) = true := by
          simpa using hk
        simp [hbeq, hk, hcl]
    · have hbeq : (k == p.name) = false := by
        simpa using hk
      have hcont : ((p.name :: ps.map Param.name).contains k)
          = ((ps.map Param.name).contains k) := by
        simp [List.contains_cons, Ne.symm hk, hk]
      cases hcl : context.lookup p.name with
      | none =>
        simp only [hcl, Option.map_none']
        rw [ih hps k, List.map_cons, hcont]
      | some v =>
        simp only [hcl, Option.map_some']
        rw [List.lookup_cons]
        simp only [hbeq]
        rw [ih hps k, List.map_cons, hcont]

/-- C9: determine_op_kwargs raises the reserved-key ValueError when
one of the first num_op_args parameter names is a context key; with
no such collision, it returns the context itself when a catch-all **
parameter is declared, and otherwise exactly the restriction of the
context to the declared parameter names that occur in the context. -/
theorem determine_op_kwargs_spec (sig : List Param) (context : List (String × α))
    (n : Nat) (hnd : (sig.map Param.name).Nodup) :
    ((sig.take n).any (fun p => (context.map Prod.fst).contains p.name) = false →
        ((sig.any (fun p => p.isVarKeyword)) = true →
          determine_op_kwargs sig context n = Except.ok context)
      ∧ ((sig.any (fun p => p.isVarKeyword)) = false →
          ∃ m, determine_op_kwargs sig context n = Except.ok m
            ∧ ∀ k, m.lookup k
                = if (sig.map Param.name).contains k then context.lookup k else none))
  ∧ ((sig.take n).any (fun p => (context.map Prod.fst).contains p.name) = true →
      ∃ msg, determine_op_kwargs sig context n = Except.error msg) := by
  constructor
  · intro hno
    have hfind : (sig.take n).find?
        (fun p => (context.map Prod.fst).contains p.name) = none := by
      rw [List.find?_eq_none]
      intro x hx
      have := List.any_eq_false.mp hno x hx
      simpa using this
    constructor
    · intro hvk
      unfold determine_op_kwargs
      rw [hfind]
      simp [hvk]
    · intro hvk
      refine ⟨sig.filterMap (fun p => (context.lookup p.name).map (fun v => (p.name, v))),
        ?_, ?_⟩
      · unfold determine_op_kwargs
        rw [hfind]
        simp [hvk]
      · intro k
        exact filterMap_lookup context sig hnd k
  · intro hyes
    have hsome : ((sig.take n).find?
        (fun p => (context.map Prod.fst).contains p.name)).isSome = true := by
      rw [List.find?_isSome]
      exact List.any_eq_true.mp hyes
    cases hq : (sig.take n).find? (fun p => (context.map Prod.fst).contains p.name) with
    | none => rw [hq] at hsome; exact Bool.noConfusion hsome
    | some q =>
      refine ⟨"The key " ++ q.name
        ++ " in the op_args is part of the context, and therefore reserved", ?_⟩
      unfold determine_op_kwargs
      rw [hq]

def sigC9 : List Param := [⟨"ds", false⟩]

def ctxC9 : List (String × Nat) := [("ds", 5)]

theorem determine_op_kwargs_spec_witness :
    ((sigC9.take 1).any (fun p => (ctxC9.map Prod.fst).contains p.name) = false →
        ((sigC9.any (fun p => p.isVarKeyword)) = true →
          determine_op_kwargs sigC9 ctxC9 1 = Except.ok ctxC9)
      ∧ ((sigC9.any (fun p => p.isVarKeyword)) = false →
          ∃ m, determine_op_kwargs sigC9 ctxC9 1 = Except.ok m
            ∧ ∀ k, m.lookup k
                = if (sigC9.map Param.name).contains k then ctxC9.lookup k else none))
  ∧ ((sigC9.take 1).any (fun p => (ctxC9.map Prod.fst).contains p.name) = true →
      ∃ msg, determine_op_kwargs sigC9 ctxC9 1 = Except.error msg) :=
  determine_op_kwargs_spec sigC9 ctxC9 1 (by decide)

lemma scaffold_argv_exact (u p : Bool) :
    ∀ line ∈ script_prefix_lines p u
        ++ ["with open(sys.argv[2], \x27wb\x27) as file:",
            "    res is not None and " ++ (codecOf u).libName ++ ".dump(res, file)"],
      (mentions "sys.argv" line = true →
          line = load_args_line true u
        ∨ line = "with open(sys.argv[3], \x27r\x27) as file:"
        ∨ line = "with open(sys.argv[2], \x27wb\x27) as file:")
      ∧ mentions "os.environ" line = false := by
  cases u <;> cases p <;> decide

/-- C4: the subprocess command line is exactly the interpreter at the
fixed relative path bin/python inside the temporary directory
followed by the script, input, output and string-args paths in that
order, and the generated script consumes the three trailing
arguments positionally in the same mapping — sys.argv[1] is loaded as
the input artifact (only when arguments are passed), sys.argv[2] is
opened for the output artifact, sys.argv[3] is read for the string
args — with no other argv access and no environment-variable access
in the script scaffold. -/
theorem cli_contract (tmp : String) (cfg : VenvConfig α)
    (hn1 : mentions "sys.argv"
      ("res = " ++ cfg.callable.name ++ "(*args, **kwargs)") = false)
    (hn2 : mentions "os.environ"
      ("res = " ++ cfg.callable.name ++ "(*args, **kwargs)") = false) :
    execute_cmd tmp = [tmp ++ "/bin/python", tmp ++ "/script.py", tmp ++ "/script.in",
        tmp ++ "/script.out", tmp ++ "/string_args.txt"]
  ∧ (pass_op_args cfg = true →
      load_args_line (pass_op_args cfg) cfg.use_dill
        = "with open(sys.argv[1], \"rb\") as file: arg_dict = "
          ++ (codecOf cfg.use_dill).libName ++ ".load(file)")
  ∧ "with open(sys.argv[3], \x27r\x27) as file:"
      ∈ script_prefix_lines (pass_op_args cfg) cfg.use_dill
  ∧ "with open(sys.argv[2], \x27wb\x27) as file:"
      ∈ script_suffix_lines cfg.use_dill cfg.callable.name
  ∧ (∀ line ∈ script_prefix_lines (pass_op_args cfg) cfg.use_dill
        ++ script_suffix_lines cfg.use_dill cfg.callable.name,
      (mentions "sys.argv" line = true →
          line = load_args_line true cfg.use_dill
        ∨ line = "with open(sys.argv[3], \x27r\x27) as file:"
        ∨ line = "with open(sys.argv[2], \x27wb\x27) as file:")
      ∧ mentions "os.environ" line = false) := by
  refine ⟨rfl, ?_, ?_, ?_, ?_⟩
  · intro hp
    rw [hp]
    rfl
  · simp [script_prefix_lines]
  · simp [script_suffix_lines]
  · intro line hline
    rw [List.mem_append] at hline
    rcases hline with hline | hline
    · exact scaffold_argv_exact cfg.use_dill (pass_op_args cfg) line
        (List.mem_append_left _ hline)
    · simp only [script_suffix_lines, List.mem_cons, List.not_mem_nil, or_false] at hline
      rcases hline with rfl | rfl | rfl
      · constructor
        · intro hm
          rw [hn1] at hm
          exact Bool.noConfusion hm
        · exact hn2
      · exact scaffold_argv_exact cfg.use_dill (pass_op_args cfg) _
          (List.mem_append_right _ (by simp))
      · exact scaffold_argv_exact cfg.use_dill (pass_op_args cfg) _
          (List.mem_append_right _ (by simp))

def cfgC4 : VenvConfig Nat :=
  ⟨⟨true, true, "f", "def f(): return 7"⟩, [], none, false, true, [1], [], ["s"]⟩

theorem cli_contract_witness :
    execute_cmd "/tmp/venv" = ["/tmp/venv" ++ "/bin/python", "/tmp/venv" ++ "/script.py",
        "/tmp/venv" ++ "/script.in", "/tmp/venv" ++ "/script.out",
        "/tmp/venv" ++ "/string_args.txt"]
  ∧ (pass_op_args cfgC4 = true →
      load_args_line (pass_op_args cfgC4) cfgC4.use_dill
        = "with open(sys.argv[1], \"rb\") as file: arg_dict = "
          ++ (codecOf cfgC4.use_dill).libName ++ ".load(file)")
  ∧ "with open(sys.argv[3], \x27r\x27) as file:"
      ∈ script_prefix_lines (pass_op_args cfgC4) cfgC4.use_dill
  ∧ "with open(sys.argv[2], \x27wb\x27) as file:"
      ∈ script_suffix_lines cfgC4.use_dill cfgC4.callable.name
  ∧ (∀ line ∈ script_prefix_lines (pass_op_args cfgC4) cfgC4.use_dill
        ++ script_suffix_lines cfgC4.use_dill cfgC4.callable.name,
      (mentions "sys.argv" line = true →
          line = load_args_line true cfgC4.use_dill
        ∨ line = "with open(sys.argv[3], \x27r\x27) as file:"
        ∨ line = "with open(sys.argv[2], \x27wb\x27) as file:")
      ∧ mentions "os.environ" line = false) :=
  cli_contract "/tmp/venv" cfgC4 (by decide) (by decide)

end AirflowPython
